import Mathlib

/-
  Shallow embedding of the compliance-engine transaction pipeline.

  Sources embedded:
  - src/src/config/rules.ts               (rate/exemption/merchant configuration)
  - src/src/calculation/RateTable.ts      (rate lookups)
  - src/src/calculation/FeeCalculator.ts  (per-item fees, totals, reconciliation)
  - src/src/gates/InputValidationGate.ts
  - src/src/gates/AddressValidationGate.ts (cache + remote + fallback)
  - src/src/gates/ApplicabilityGate.ts
  - src/src/gates/ExemptionGate.ts
  - gates/GateOrchestrator.ts             (sequential execution, short-circuit)
  - ComplianceEngine.ts                   (response assembly)

  Numbers are modelled as exact rationals (the source uses decimal.js for fee
  arithmetic; `toFixed(n)` is modelled as half-up rounding to n decimal places,
  which agrees with decimal.js ROUND_HALF_UP on the nonnegative values that
  occur here).  The nondeterministic external-service outcome (success vs
  throw/timeout) is an explicit parameter; the process-wide address cache is
  threaded explicitly.
-/

namespace Compliance

/-- Model of decimal.js toFixed(2): round half-up to 2 decimal places. -/
def round2 (q : ℚ) : ℚ := (⌊q * 100 + 1/2⌋ : ℚ) / 100

/-- Model of toFixed(4): round half-up to 4 decimal places. -/
def round4 (q : ℚ) : ℚ := (⌊q * 10000 + 1/2⌋ : ℚ) / 10000

/-- A rational that is a whole number of cents (two decimal places). -/
def Cent (q : ℚ) : Prop := ∃ k : ℤ, q = (k : ℚ) / 100

theorem cent_round2 (q : ℚ) : Cent (round2 q) := ⟨⌊q * 100 + 1/2⌋, rfl⟩

theorem cent_zero : Cent 0 := ⟨0, by norm_num⟩

theorem cent_add {a b : ℚ} (ha : Cent a) (hb : Cent b) : Cent (a + b) := by
  obtain ⟨j, rfl⟩ := ha
  obtain ⟨k, rfl⟩ := hb
  exact ⟨j + k, by push_cast; ring⟩

theorem round2_of_cent {q : ℚ} (h : Cent q) : round2 q = q := by
  obtain ⟨k, rfl⟩ := h
  unfold round2
  have h100 : ((k : ℚ) / 100) * 100 = (k : ℚ) := by
    field_simp
  rw [h100]
  have hfloor : ⌊(k : ℚ) + 1/2⌋ = k + ⌊(1/2 : ℚ)⌋ := Int.floor_int_add k (1/2)
  have hhalf : ⌊(1/2 : ℚ)⌋ = 0 := by norm_num
  rw [hfloor, hhalf, add_zero]

theorem cent_list_sum (l : List ℚ) (h : ∀ x ∈ l, Cent x) : Cent l.sum := by
  induction l with
  | nil => simpa using cent_zero
  | cons a t ih =>
    rw [List.sum_cons]
    exact cent_add (h a (List.mem_cons_self a t)) (ih fun x hx => h x (List.mem_cons_of_mem a hx))

/-! ## Configuration (src/config/rules.ts) -/

/-- Rate structure per state (rules.ts STATE_RATES entry shape). -/
structure JurisdictionRates where
  stateRate : ℚ
  countyRate : Option ℚ
  cityRate : Option ℚ
deriving Repr, DecidableEq

/-- rules.ts STATE_RATES map. -/
def STATE_RATES (s : String) : Option JurisdictionRates :=
  if s = "CA" then some ⟨0.06, some 0.0025, some 0.0225⟩
  else if s = "NY" then some ⟨0.04, some 0.005, some 0.01⟩
  else if s = "TX" then some ⟨0, none, none⟩
  else none

/-- rules.ts CATEGORY_MODIFIERS map. -/
def CATEGORY_MODIFIERS (c : String) : Option ℚ :=
  if c = "SOFTWARE" then some 0.01
  else if c = "PHYSICAL_GOODS" then some 0
  else if c = "FOOD" then some 0
  else none

/-- rules.ts COUNTY_MAPPINGS map. -/
def COUNTY_MAPPINGS (city : String) : Option String :=
  if city = "Los Angeles" then some "Los Angeles County" else none

/-- rules.ts MERCHANT_THRESHOLD constant. -/
def MERCHANT_THRESHOLD : ℕ := 100000

/-- rules.ts MERCHANT_VOLUMES lookup followed by the `|| 0` defaults of
getMerchantVolume: unknown merchant or unknown state yields 0. -/
def getMerchantVolume (merchantId state : String) : ℕ :=
  if merchantId = "merchant_456" then (if state = "CA" then 2300000 else 0)
  else if merchantId = "merchant_789" then (if state = "NY" then 50000 else 0)
  else 0

/-- rules.ts merchantMeetsThreshold. -/
def merchantMeetsThreshold (merchantId state : String) : Bool :=
  decide (MERCHANT_THRESHOLD ≤ getMerchantVolume merchantId state)

/-- rules.ts CUSTOMER_EXEMPTION_TYPES membership (isCustomerExempt). -/
def isCustomerExempt (customerType : String) : Bool :=
  ["WHOLESALE"].contains customerType

/-- rules.ts ITEM_EXEMPTION_RULES map. -/
def ITEM_EXEMPTION_RULES (category : String) : Option (List String) :=
  if category = "FOOD" then some ["CA"] else none

/-- rules.ts isItemExempt. -/
def isItemExempt (category state : String) : Bool :=
  match ITEM_EXEMPTION_RULES category with
  | some states => states.contains state
  | none => false

/-- Supported jurisdictions as seeded into the jurisdictions table
(database seed 001; the AddressValidationGate validates against these rows
through isStateSupported / isCitySupported in database/queries/configQueries). -/
def jurisdictionsTable : List (String × String) :=
  [("CA", "Los Angeles"), ("CA", "San Francisco"), ("CA", "San Diego"),
   ("NY", "New York City"), ("NY", "Buffalo")]

/-- configQueries.isStateSupported: some supported row exists for the state. -/
def isStateSupported (state : String) : Bool :=
  jurisdictionsTable.any (fun p => p.1 == state)

/-- configQueries.isCitySupported: a supported row exists for the state/city pair. -/
def isCitySupported (state city : String) : Bool :=
  jurisdictionsTable.any (fun p => p.1 == state && p.2 == city)

/-! ## RateTable (src/calculation/RateTable.ts) -/

/-- RateTable.getStateRate: `rates?.stateRate || 0`. -/
def getStateRate (state : String) : ℚ :=
  match STATE_RATES state with
  | none => 0
  | some r => r.stateRate

/-- RateTable.getCountyRate: undefined when the state has no (truthy) county
rate or the city has no county mapping. -/
def getCountyRate (state city : String) : Option ℚ :=
  match STATE_RATES state with
  | none => none
  | some r =>
    match r.countyRate with
    | none => none
    | some cr =>
      if cr = 0 then none
      else
        match COUNTY_MAPPINGS city with
        | some _ => some cr
        | none => none

/-- RateTable.getCityRate: only the hard-coded CA/Los Angeles and
NY/New York City pairs have a city rate. -/
def getCityRate (state city : String) : Option ℚ :=
  match STATE_RATES state with
  | none => none
  | some r =>
    match r.cityRate with
    | none => none
    | some cr =>
      if cr = 0 then none
      else if state = "CA" ∧ city = "Los Angeles" then some cr
      else if state = "NY" ∧ city = "New York City" then some cr
      else none

/-- RateTable.getCategoryModifier: `categoryModifiers.get(category) || 0`. -/
def getCategoryModifier (category : String) : ℚ :=
  (CATEGORY_MODIFIERS category).getD 0

/-- FeeCalculator.getCountyName. -/
def getCountyName (city : String) : String :=
  if city = "Los Angeles" then "Los Angeles County" else city ++ " County"

/-! ## Data model (src/types/index.ts) -/

structure Destination where
  country : String
  state : String
  city : String
deriving Repr, DecidableEq

structure Item where
  id : String
  category : String
  amount : ℚ
deriving Repr, DecidableEq

structure TransactionInput where
  transactionId : String
  merchantId : String
  customerId : String
  destination : Destination
  items : List Item
  totalAmount : ℚ
  currency : String
deriving Repr, DecidableEq

/-- ExemptionData; the JS Map is modelled as an association list in insertion
order (JS Map preserves insertion order). -/
structure ExemptionData where
  customerExemptions : List String
  itemExemptions : List (String × List String)
deriving Repr, DecidableEq

/-- `exemptionData.itemExemptions.get(itemId) || []`. -/
def lookupExemptions (m : List (String × List String)) (k : String) : List String :=
  match m.find? (fun p => p.1 == k) with
  | some p => p.2
  | none => []

/-- JS Map.set: replace the value at an existing key in place, else append. -/
def mapSet (m : List (String × List String)) (k : String) (v : List String) :
    List (String × List String) :=
  if (m.find? (fun p => p.1 == k)).isSome
  then m.map (fun p => if p.1 == k then (k, v) else p)
  else m ++ [(k, v)]

/-- One component of an item's fee breakdown; `label` is the jurisdiction
(or category) name carried in the source's breakdown record. -/
structure FeeRateBreakdown where
  label : String
  rate : ℚ
  amount : ℚ
deriving Repr, DecidableEq

structure ItemFees where
  stateRate : FeeRateBreakdown
  countyRate : Option FeeRateBreakdown
  cityRate : Option FeeRateBreakdown
  categoryModifier : FeeRateBreakdown
deriving Repr, DecidableEq

structure ItemFeeCalculation where
  itemId : String
  amount : ℚ
  category : String
  fees : ItemFees
  totalFee : ℚ
deriving Repr, DecidableEq

structure CalculationResult where
  items : List ItemFeeCalculation
  totalFees : ℚ
  effectiveRate : ℚ
  auditTrail : List String
deriving Repr, DecidableEq

/-! ## FeeCalculator (src/calculation/FeeCalculator.ts) -/

/-- FeeCalculator.calculateItemFees.  The running itemTotalFee starts from the
UNROUNDED state fee, adds the ROUNDED county and city breakdown amounts, adds
the UNROUNDED category-modifier fee, and is rounded once at the end; the four
breakdown amounts themselves are each rounded to 2 decimals. -/
def calculateItemFees (item : Item) (state city : String) : ItemFeeCalculation :=
  let itemAmount := item.amount
  let stateRate := getStateRate state
  let stateFee := itemAmount * stateRate
  let stateBreakdown : FeeRateBreakdown := ⟨state, stateRate, round2 stateFee⟩
  let countyBreakdown : Option FeeRateBreakdown :=
    match getCountyRate state city with
    | some cr => some ⟨getCountyName city, cr, round2 (itemAmount * cr)⟩
    | none => none
  let cityBreakdown : Option FeeRateBreakdown :=
    match getCityRate state city with
    | some cr => some ⟨city, cr, round2 (itemAmount * cr)⟩
    | none => none
  let categoryModifierRate := getCategoryModifier item.category
  let categoryModifierFee := itemAmount * categoryModifierRate
  let categoryBreakdown : FeeRateBreakdown :=
    ⟨item.category, categoryModifierRate, round2 categoryModifierFee⟩
  let countyAmount : ℚ :=
    match countyBreakdown with
    | some b => b.amount
    | none => 0
  let cityAmount : ℚ :=
    match cityBreakdown with
    | some b => b.amount
    | none => 0
  let itemTotalFee := stateFee + countyAmount + cityAmount + categoryModifierFee
  ⟨item.id, item.amount, item.category,
   ⟨stateBreakdown, countyBreakdown, cityBreakdown, categoryBreakdown⟩,
   round2 itemTotalFee⟩

/-- The exempt-item record pushed by calculateFees (all-zero fees). -/
def exemptItemCalc (item : Item) : ItemFeeCalculation :=
  ⟨item.id, item.amount, item.category,
   ⟨⟨"", 0, 0⟩, none, none, ⟨item.category, 0, 0⟩⟩, 0⟩

/-- Audit line pushed for an exempt item. -/
def exemptAuditLine (item : Item) : String :=
  "Item " ++ item.id ++ " (" ++ item.category ++ ") exempt - no fees applied"

/-- Decimal rendering with 2 places of a nonnegative rational, as used in the
percentage audit lines (models Number.toFixed(2) on the exact values here). -/
def fixed2String (q : ℚ) : String :=
  let c := (⌊q * 100 + 1/2⌋).toNat
  toString (c / 100) ++ "." ++ (if c % 100 < 10 then "0" else "") ++ toString (c % 100)

/-- Audit lines pushed for a non-exempt item (one per nonzero component). -/
def rateAuditLines (state : String) (item : Item) (c : ItemFeeCalculation) : List String :=
  (if 0 < c.fees.stateRate.amount then
     ["Applied " ++ state ++ " state rate: " ++ fixed2String (c.fees.stateRate.rate * 100) ++ "%"]
   else [])
  ++ (match c.fees.countyRate with
      | some b =>
        if 0 < b.amount then
          ["Applied " ++ b.label ++ " county rate: " ++ fixed2String (b.rate * 100) ++ "%"]
        else []
      | none => [])
  ++ (match c.fees.cityRate with
      | some b =>
        if 0 < b.amount then
          ["Applied " ++ b.label ++ " city rate: " ++ fixed2String (b.rate * 100) ++ "%"]
        else []
      | none => [])
  ++ (if 0 < c.fees.categoryModifier.amount then
        ["Applied " ++ item.category ++ " category modifier: " ++
          fixed2String (c.fees.categoryModifier.rate * 100) ++ "%"]
      else [])

/-- The item-exemption test of the calculateFees loop:
`itemExemptions.length > 0 || isCustomerFullyExempt`. -/
def itemIsExempt (exm : ExemptionData) (item : Item) : Bool :=
  decide (0 < (lookupExemptions exm.itemExemptions item.id).length)
    || decide (0 < exm.customerExemptions.length)

/-- One iteration of the calculateFees item loop, accumulating
(itemCalculations, totalFees, auditTrail). -/
def calcStep (state city : String) (exm : ExemptionData)
    (acc : List ItemFeeCalculation × ℚ × List String) (item : Item) :
    List ItemFeeCalculation × ℚ × List String :=
  if itemIsExempt exm item then
    (acc.1 ++ [exemptItemCalc item], acc.2.1, acc.2.2 ++ [exemptAuditLine item])
  else
    let c := calculateItemFees item state city
    (acc.1 ++ [c], acc.2.1 + c.totalFee, acc.2.2 ++ rateAuditLines state item c)

/-- The record the loop body produces for a given input item (exempt record or
the normal per-item calculation). -/
def itemOutput (state city : String) (exm : ExemptionData) (item : Item) :
    ItemFeeCalculation :=
  if itemIsExempt exm item then exemptItemCalc item else calculateItemFees item state city

/-- The last-item adjustment of the reconciliation branch:
`lastItem.totalFee = parseFloat((lastItem.totalFee + difference).toFixed(2))`. -/
def adjustLast (difference : ℚ) : List ItemFeeCalculation → List ItemFeeCalculation
  | [] => []
  | [c] => [{ c with totalFee := round2 (c.totalFee + difference) }]
  | c :: rest => c :: adjustLast difference rest

/-- FeeCalculator.calculateFees. -/
def calculateFees (t : TransactionInput) (exm : ExemptionData) : CalculationResult :=
  let state := t.destination.state
  let city := t.destination.city
  let folded := t.items.foldl (calcStep state city exm) ([], 0, [])
  let itemCalculations := folded.1
  let totalFees := folded.2.1
  let auditTrail := folded.2.2
  let totalFeesRounded := round2 totalFees
  let effectiveRate := if 0 < t.totalAmount then totalFeesRounded / t.totalAmount else 0
  let itemFeesSum := (itemCalculations.map (fun c => c.totalFee)).sum
  let finalItems :=
    if 1/100 < |itemFeesSum - totalFeesRounded| then
      adjustLast (totalFeesRounded - itemFeesSum) itemCalculations
    else itemCalculations
  ⟨finalItems, totalFeesRounded, round4 effectiveRate, auditTrail⟩

/-! ## Gate result shape (gates/types.ts, gates/IGate.ts) -/

inductive ErrorType
  | VALIDATION
  | DEPENDENCY
  | SYSTEM
deriving Repr, DecidableEq

/-- The metadata records attached by the concrete gates, flattened to one
record of optional fields (each gate populates only the fields it uses). -/
structure GateMeta where
  source : Option String := none
  country : Option String := none
  state : Option String := none
  city : Option String := none
  fallback : Option Bool := none
  merchantId : Option String := none
  volume : Option ℕ := none
  threshold : Option ℕ := none
  exemptionData : Option ExemptionData := none
  appliedExemptions : Option (List String) := none
deriving Repr, DecidableEq

structure GateResult where
  gateName : String
  passed : Bool
  message : Option String := none
  errorType : Option ErrorType := none
  metadata : Option GateMeta := none
deriving Repr, DecidableEq

/-- BaseGate.createPassResult. -/
def createPassResult (gateName message : String) (metadata : Option GateMeta) : GateResult :=
  ⟨gateName, true, some message, none, metadata⟩

/-- BaseGate.createFailResult. -/
def createFailResult (gateName message : String) (errorType : ErrorType)
    (metadata : Option GateMeta) : GateResult :=
  ⟨gateName, false, some message, some errorType, metadata⟩

/-- Rendering of a rational in a validation message (the source interpolates
the JS number; the exact decimal rendering is abstracted to the canonical
num/den form since no claim depends on this text). -/
def ratStr (q : ℚ) : String :=
  toString q.num ++ (if q.den == 1 then "" else "/" ++ toString q.den)

/-! ## InputValidationGate (src/gates/InputValidationGate.ts)

The transaction is typed in the embedding, so the typeof checks that cannot
fail on a well-typed value are omitted; the JS falsiness checks on strings
become emptiness checks, and the value checks are kept in source order. -/

/-- Per-item checks of the validation loop, first violation wins. -/
def itemViolation (it : Item) : Option String :=
  if it.id = "" then some "Each item must have an id (string)"
  else if it.category = "" then some "Each item must have a category (string)"
  else if it.amount < 0 then some "Each item must have a non-negative amount (number)"
  else none

def firstItemViolation : List Item → Option String
  | [] => none
  | it :: rest =>
    match itemViolation it with
    | some m => some m
    | none => firstItemViolation rest

/-- The first violation message found by the ordered checks of
InputValidationGate.execute (none when every check passes); every failure of
this gate is a VALIDATION failure with no metadata, so the gate result is
assembled from this first message below. -/
def inputValidationError (t : TransactionInput) : Option String :=
  if t.transactionId = "" then some "transactionId is required and must be a string"
  else if t.merchantId = "" then some "merchantId is required and must be a string"
  else if t.customerId = "" then some "customerId is required and must be a string"
  else if t.destination.country = "" then some "destination.country is required"
  else if t.destination.state = "" then some "destination.state is required"
  else if t.destination.city = "" then some "destination.city is required"
  else if t.items.isEmpty then some "items is required and must be a non-empty array"
  else
    match firstItemViolation t.items with
    | some m => some m
    | none =>
      if t.totalAmount < 0 then
        some "totalAmount is required and must be a non-negative number"
      else if t.currency = "" then some "currency is required and must be a string"
      else if t.currency ≠ "USD" then
        some ("Unsupported currency: " ++ t.currency ++ ". Only USD is supported")
      else if 1/100 < |(t.items.map (fun it => it.amount)).sum - t.totalAmount| then
        some ("Items sum (" ++ ratStr (t.items.map (fun it => it.amount)).sum ++
          ") does not match totalAmount (" ++ ratStr t.totalAmount ++ ")")
      else none

def inputValidationExec (t : TransactionInput) : GateResult :=
  match inputValidationError t with
  | some m => createFailResult "InputValidation" m .VALIDATION none
  | none => createPassResult "InputValidation" "Input validation passed" none

/-! ## AddressValidationGate (src/gates/AddressValidationGate.ts)

The module-level addressCache is threaded explicitly; whether the simulated
external call throws (timeout or unavailability) is the RemoteBehavior
parameter.  The validation logic itself (shared by the remote service
simulation and the fallback) checks country, supported state, supported
city against the jurisdiction rows. -/

/-- The process-wide "state:city" -> bool cache, as an association list in
insertion order. -/
abbrev AddrCache := List (String × Bool)

def cacheLookup (cache : AddrCache) (k : String) : Option Bool :=
  match cache.find? (fun p => p.1 == k) with
  | some p => some p.2
  | none => none

/-- JS object property assignment: overwrite in place or append. -/
def cacheInsert (cache : AddrCache) (k : String) (v : Bool) : AddrCache :=
  if (cache.find? (fun p => p.1 == k)).isSome
  then cache.map (fun p => if p.1 == k then (k, v) else p)
  else cache ++ [(k, v)]

/-- Whether the simulated external call returns or throws on this request. -/
inductive RemoteBehavior
  | succeeds
  | fails
deriving Repr, DecidableEq

/-- The validation logic of validateWithExternalService (after the simulated
delay/failure): country must be US, state and city must be supported. -/
def addressValidationLogic (country state city : String) : Bool :=
  country == "US" && isStateSupported state && isCitySupported state city

/-- AddressValidationGate.fallbackValidation: re-validates with the same
rules, caches the outcome (negative on each failing check, positive on
success), fails with DEPENDENCY and passes with source=fallback. -/
def fallbackValidation (country state city cacheKey : String) (cache : AddrCache) :
    GateResult × AddrCache :=
  if country ≠ "US" then
    (createFailResult "AddressValidation"
       ("Unsupported country: " ++ country ++ ". Only US is supported") .DEPENDENCY
       (some { country := some country, state := some state, city := some city,
               fallback := some true }),
     cacheInsert cache cacheKey false)
  else if !isStateSupported state then
    (createFailResult "AddressValidation" ("Unsupported state: " ++ state) .DEPENDENCY
       (some { country := some country, state := some state, city := some city,
               fallback := some true }),
     cacheInsert cache cacheKey false)
  else if !isCitySupported state city then
    (createFailResult "AddressValidation"
       ("Unsupported city: " ++ city ++ " in state " ++ state) .DEPENDENCY
       (some { country := some country, state := some state, city := some city,
               fallback := some true }),
     cacheInsert cache cacheKey false)
  else
    (createPassResult "AddressValidation" "Valid US address (fallback validation)"
       (some { source := some "fallback", country := some country, state := some state,
               city := some city }),
     cacheInsert cache cacheKey true)

/-- AddressValidationGate.execute. -/
def addressValidationExec (t : TransactionInput) (remote : RemoteBehavior)
    (cache : AddrCache) : GateResult × AddrCache :=
  let country := t.destination.country
  let state := t.destination.state
  let city := t.destination.city
  let cacheKey := state ++ ":" ++ city
  match cacheLookup cache cacheKey with
  | some true =>
    (createPassResult "AddressValidation" "Valid address (from cache)"
       (some { source := some "cache" }), cache)
  | some false =>
    (createFailResult "AddressValidation"
       ("Unsupported destination: " ++ city ++ ", " ++ state) .VALIDATION
       (some { country := some country, state := some state, city := some city }), cache)
  | none =>
    match remote with
    | .succeeds =>
      let isValid := addressValidationLogic country state city
      let cache2 := cacheInsert cache cacheKey isValid
      if isValid then
        (createPassResult "AddressValidation" "Valid US address"
           (some { source := some "external_service" }), cache2)
      else
        (createFailResult "AddressValidation"
           ("Unsupported destination: " ++ city ++ ", " ++ state) .VALIDATION
           (some { country := some country, state := some state, city := some city }),
         cache2)
    | .fails => fallbackValidation country state city cacheKey cache

/-! ## ApplicabilityGate (src/gates/ApplicabilityGate.ts) -/

/-- Pads a 3-digit group with leading zeros. -/
def pad3 (n : ℕ) : String :=
  if n < 10 then "00" ++ toString n
  else if n < 100 then "0" ++ toString n
  else toString n

def commaGroupAux : ℕ → ℕ → String
  | 0, n => toString n
  | fuel + 1, n =>
    if n < 1000 then toString n
    else commaGroupAux fuel (n / 1000) ++ "," ++ pad3 (n % 1000)

/-- JS Number.toLocaleString for a natural number: comma-grouped thousands. -/
def toLocaleString (n : ℕ) : String := commaGroupAux n n

def applicabilityExec (t : TransactionInput) : GateResult :=
  let merchantId := t.merchantId
  let state := t.destination.state
  let volume := getMerchantVolume merchantId state
  if merchantMeetsThreshold merchantId state then
    createPassResult "Applicability" ("Merchant above $100K threshold in " ++ state)
      (some { merchantId := some merchantId, state := some state, volume := some volume,
              threshold := some MERCHANT_THRESHOLD })
  else
    createFailResult "Applicability"
      ("Merchant volume ($" ++ toLocaleString volume ++ ") below threshold ($" ++
        toLocaleString MERCHANT_THRESHOLD ++ ") in " ++ state)
      .VALIDATION
      (some { merchantId := some merchantId, state := some state, volume := some volume,
              threshold := some MERCHANT_THRESHOLD })

/-! ## ExemptionGate (src/gates/ExemptionGate.ts) -/

/-- Per-request context; the source passes a plain record whose customerType
field the exemption gate reads. -/
structure Context where
  customerType : Option String := none
deriving Repr, DecidableEq

def exemptionExec (t : TransactionInput) (ctx : Context) : GateResult :=
  let state := t.destination.state
  let customerExemptions : List String :=
    match ctx.customerType with
    | some ct => if ct = "" then [] else if isCustomerExempt ct then [ct] else []
    | none => []
  let itemExemptions : List (String × List String) :=
    t.items.foldl
      (fun acc it =>
        if isItemExempt it.category state then
          mapSet acc it.id [it.category ++ " exempt in " ++ state]
        else acc)
      []
  let exemptionData : ExemptionData := ⟨customerExemptions, itemExemptions⟩
  let appliedExemptions : List String :=
    customerExemptions ++
      (itemExemptions.map (fun p => p.2.map (fun reason => p.1 ++ ": " ++ reason))).flatten
  createPassResult "ExemptionCheck"
    (if appliedExemptions.length == 0 then "No exemptions applied"
     else toString appliedExemptions.length ++ " exemption(s) applied")
    (some { exemptionData := some exemptionData,
            appliedExemptions := some appliedExemptions })

/-! ## GateOrchestrator (gates/GateOrchestrator.ts) -/

/-- The audit line pushed after a gate executes:
`result.message || gateName + " passed"` on pass (JS falsiness on the empty
string), `gateName + " failed: " + message` on failure. -/
def auditLine (r : GateResult) : String :=
  if r.passed then
    match r.message with
    | some m => if m = "" then r.gateName ++ " passed" else m
    | none => r.gateName ++ " passed"
  else
    r.gateName ++ " failed: " ++
      (match r.message with
       | some m => m
       | none => "undefined")

structure Orchestration where
  results : List GateResult
  passed : Bool
  auditTrail : List String
  cache : AddrCache
deriving Repr, DecidableEq

/-- GateOrchestrator.execute: run the fixed gate list in order, appending one
audit line per executed gate, short-circuiting on the first failure. -/
def orchestratorExecute (t : TransactionInput) (ctx : Context)
    (remote : RemoteBehavior) (cache : AddrCache) : Orchestration :=
  let r1 := inputValidationExec t
  if r1.passed then
    let a2 := addressValidationExec t remote cache
    let r2 := a2.1
    let cache2 := a2.2
    if r2.passed then
      let r3 := applicabilityExec t
      if r3.passed then
        let r4 := exemptionExec t ctx
        if r4.passed then
          ⟨[r1, r2, r3, r4], true, [auditLine r1, auditLine r2, auditLine r3, auditLine r4],
           cache2⟩
        else
          ⟨[r1, r2, r3, r4], false, [auditLine r1, auditLine r2, auditLine r3, auditLine r4],
           cache2⟩
      else ⟨[r1, r2, r3], false, [auditLine r1, auditLine r2, auditLine r3], cache2⟩
    else ⟨[r1, r2], false, [auditLine r1, auditLine r2], cache2⟩
  else ⟨[r1], false, [auditLine r1], cache⟩

/-! ## ComplianceEngine (ComplianceEngine.ts) -/

structure GateEntry where
  name : String
  passed : Bool
  message : Option String
  appliedExemptions : Option (List String) := none
deriving Repr, DecidableEq

structure Calculation where
  items : List ItemFeeCalculation
  totalFees : ℚ
  effectiveRate : ℚ
deriving Repr, DecidableEq

inductive TransactionStatus
  | CALCULATED
  | REJECTED
  | FAILED
deriving Repr, DecidableEq

structure ComplianceResponse where
  transactionId : String
  status : TransactionStatus
  gates : List GateEntry
  calculation : Option Calculation := none
  auditTrail : List String
deriving Repr, DecidableEq

/-- The fixed internal-to-public gate name mapping. -/
def gateNameMapping (n : String) : Option String :=
  if n = "AddressValidation" then some "ADDRESS_VALIDATION"
  else if n = "Applicability" then some "APPLICABILITY"
  else if n = "ExemptionCheck" then some "EXEMPTION_CHECK"
  else none

/-- JS String.toUpperCase (ASCII suffices for the names that occur). -/
def jsToUpperCase (s : String) : String := s.map Char.toUpper

/-- ComplianceEngine.transformGateResults: drop InputValidation, rename, and
attach appliedExemptions (possibly empty) to the ExemptionCheck entry only.
A JS array is truthy even when empty, so a present metadata.appliedExemptions
list is used as-is and only an absent one falls back to []. -/
def transformGateResults (results : List GateResult) : List GateEntry :=
  (results.filter (fun r => r.gateName != "InputValidation")).map (fun r =>
    let name := (gateNameMapping r.gateName).getD (jsToUpperCase r.gateName)
    if r.gateName = "ExemptionCheck" then
      match r.metadata with
      | some md =>
        match md.appliedExemptions with
        | some l => ⟨name, r.passed, r.message, some l⟩
        | none => ⟨name, r.passed, r.message, some []⟩
      | none => ⟨name, r.passed, r.message, some []⟩
    else ⟨name, r.passed, r.message, none⟩)

/-- ComplianceEngine.extractExemptionData. -/
def extractExemptionData (r : Option GateResult) : ExemptionData :=
  match r with
  | none => ⟨[], []⟩
  | some gr =>
    match gr.metadata with
    | none => ⟨[], []⟩
    | some md =>
      match md.exemptionData with
      | none => ⟨[], []⟩
      | some e => e

/-- ComplianceEngine.process (response and updated cache). -/
def engineProcess (t : TransactionInput) (ctx : Context) (remote : RemoteBehavior)
    (cache : AddrCache) : ComplianceResponse × AddrCache :=
  let ge := orchestratorExecute t ctx remote cache
  if ge.passed then
    let exr := ge.results.find? (fun r => r.gateName == "ExemptionCheck")
    let exm := extractExemptionData exr
    let calcResult := calculateFees t exm
    (⟨t.transactionId, .CALCULATED, transformGateResults ge.results,
      some ⟨calcResult.items, calcResult.totalFees, calcResult.effectiveRate⟩,
      ge.auditTrail ++ calcResult.auditTrail⟩, ge.cache)
  else
    (⟨t.transactionId, .REJECTED, transformGateResults ge.results, none, ge.auditTrail⟩,
     ge.cache)

/-! ## FeeCalculator structure lemmas -/

theorem itemOutput_totalFee_cent (st ci : String) (exm : ExemptionData) (item : Item) :
    Cent ((itemOutput st ci exm item).totalFee) := by
  unfold itemOutput
  cases h : itemIsExempt exm item
  · simp only [h, Bool.false_eq_true, if_false]
    exact cent_round2 _
  · simp only [h, if_true]
    exact cent_zero

theorem calcStep_fst (st ci : String) (exm : ExemptionData)
    (acc : List ItemFeeCalculation × ℚ × List String) (item : Item) :
    (calcStep st ci exm acc item).1 = acc.1 ++ [itemOutput st ci exm item] := by
  unfold calcStep itemOutput
  cases h : itemIsExempt exm item <;> simp [h]

theorem calcStep_total (st ci : String) (exm : ExemptionData)
    (acc : List ItemFeeCalculation × ℚ × List String) (item : Item) :
    (calcStep st ci exm acc item).2.1 = acc.2.1 + (itemOutput st ci exm item).totalFee := by
  unfold calcStep itemOutput
  cases h : itemIsExempt exm item <;> simp [h, exemptItemCalc]

theorem foldl_calcStep_spec (st ci : String) (exm : ExemptionData) (items : List Item) :
    ∀ acc : List ItemFeeCalculation × ℚ × List String,
    (items.foldl (calcStep st ci exm) acc).1 = acc.1 ++ items.map (itemOutput st ci exm)
    ∧ (items.foldl (calcStep st ci exm) acc).2.1
        = acc.2.1 + (items.map (fun it => (itemOutput st ci exm it).totalFee)).sum := by
  induction items with
  | nil => intro acc; simp
  | cons it rest ih =>
    intro acc
    simp only [List.foldl_cons, List.map_cons]
    obtain ⟨h1, h2⟩ := ih (calcStep st ci exm acc it)
    refine ⟨?_, ?_⟩
    · rw [h1, calcStep_fst]
      simp
    · rw [h2, calcStep_total, List.sum_cons]
      ring

/-- The whole calculateFees output in closed form: because every accumulated
totalFee is a whole number of cents, the rounded total equals the exact
accumulated total and the reconciliation guard is never taken. -/
theorem calculateFees_closed (t : TransactionInput) (exm : ExemptionData) :
    calculateFees t exm =
      ⟨t.items.map (itemOutput t.destination.state t.destination.city exm),
       (t.items.map
         (fun it => (itemOutput t.destination.state t.destination.city exm it).totalFee)).sum,
       round4 (if 0 < t.totalAmount then
         (t.items.map
           (fun it => (itemOutput t.destination.state t.destination.city exm it).totalFee)).sum
           / t.totalAmount
         else 0),
       (t.items.foldl (calcStep t.destination.state t.destination.city exm) ([], 0, [])).2.2⟩ := by
  obtain ⟨h1, h2⟩ :=
    foldl_calcStep_spec t.destination.state t.destination.city exm t.items ([], 0, [])
  have hnil1 : (t.items.foldl (calcStep t.destination.state t.destination.city exm)
      ([], 0, [])).1 = t.items.map (itemOutput t.destination.state t.destination.city exm) := by
    simpa using h1
  have hnil2 : (t.items.foldl (calcStep t.destination.state t.destination.city exm)
      ([], 0, [])).2.1
      = (t.items.map
          (fun it => (itemOutput t.destination.state t.destination.city exm it).totalFee)).sum := by
    simpa using h2
  have hcent : Cent ((t.items.map
      (fun it => (itemOutput t.destination.state t.destination.city exm it).totalFee)).sum) := by
    apply cent_list_sum
    intro x hx
    rw [List.mem_map] at hx
    obtain ⟨it, hit, hx⟩ := hx
    rw [← hx]
    exact itemOutput_totalFee_cent _ _ _ _
  have hround := round2_of_cent hcent
  have hmapmap : ((t.items.map (itemOutput t.destination.state t.destination.city exm)).map
      (fun c => c.totalFee)).sum
      = (t.items.map
          (fun it => (itemOutput t.destination.state t.destination.city exm it).totalFee)).sum := by
    rw [List.map_map]
    rfl
  unfold calculateFees
  simp only [hnil1, hnil2, hround, hmapmap, sub_self, abs_zero]
  norm_num

/-! ## Sample inputs used by witnesses and counterexamples -/

/-- A valid CA/Los Angeles SOFTWARE transaction (spec scenario A shape). -/
def sampleTxA : TransactionInput :=
  ⟨"txn_a", "merchant_456", "cust_1", ⟨"US", "CA", "Los Angeles"⟩,
   [⟨"item_1", "SOFTWARE", 100⟩], 100, "USD"⟩

/-- A below-threshold merchant transaction (spec scenario E shape). -/
def sampleTxE : TransactionInput :=
  ⟨"txn_e", "merchant_789", "cust_1", ⟨"US", "NY", "New York City"⟩,
   [⟨"item_1", "SOFTWARE", 100⟩], 100, "USD"⟩

/-- A transaction with a non-US destination country. -/
def sampleTxFR : TransactionInput :=
  ⟨"txn_fr", "merchant_456", "cust_1", ⟨"FR", "CA", "Los Angeles"⟩,
   [⟨"item_1", "SOFTWARE", 100⟩], 100, "USD"⟩

/-- A transaction to an unsupported city in a supported state. -/
def sampleTxNowhere : TransactionInput :=
  ⟨"txn_nw", "merchant_456", "cust_1", ⟨"US", "CA", "Nowhere"⟩,
   [⟨"item_1", "SOFTWARE", 100⟩], 100, "USD"⟩

/-- A transaction from a merchant absent from the volume table. -/
def sampleTxUnknownMerchant : TransactionInput :=
  ⟨"txn_u", "merchant_000", "cust_1", ⟨"US", "CA", "Los Angeles"⟩,
   [⟨"item_1", "SOFTWARE", 100⟩], 100, "USD"⟩

/-! ## C1 -/

/-- C1: for every transaction with at least one item and every exemption data
set, the sum of the per-item totalFee values in the CalculationResult differs
from totalFees by at most 0.01 (here in fact 0), for any number of items. -/
theorem feeCalculator_sum_consistency (t : TransactionInput) (exm : ExemptionData)
    (h : t.items ≠ []) :
    |((calculateFees t exm).items.map (fun c => c.totalFee)).sum
      - (calculateFees t exm).totalFees| ≤ 1/100 := by
  rw [calculateFees_closed]
  simp only [List.map_map]
  have hmm : ((t.items.map (itemOutput t.destination.state t.destination.city exm)).map
      (fun c => c.totalFee)).sum
      = (t.items.map
          (fun it => (itemOutput t.destination.state t.destination.city exm it).totalFee)).sum := by
    rw [List.map_map]
    rfl
  rw [List.map_map] at hmm
  rw [hmm, sub_self, abs_zero]
  norm_num

/-- C1 witness: the consistency bound holds on the sample CA transaction. -/
theorem feeCalculator_sum_consistency_witness :
    |((calculateFees sampleTxA ⟨[], []⟩).items.map (fun c => c.totalFee)).sum
      - (calculateFees sampleTxA ⟨[], []⟩).totalFees| ≤ 1/100 :=
  feeCalculator_sum_consistency sampleTxA ⟨[], []⟩ (by decide)

/-! ## C9 -/

/-- C9: totalFees is the 2-decimal rounding of the exact sum of the per-item
totalFee values accumulated by the loop, the reconciliation guard
|itemFeesSum - totalFeesRounded| > 0.01 is never satisfied, and the returned
items are exactly the accumulated ones (no last-item adjustment ever occurs). -/
theorem reconciliation_never_fires (t : TransactionInput) (exm : ExemptionData) :
    (calculateFees t exm).totalFees
      = round2 (((t.items.foldl (calcStep t.destination.state t.destination.city exm)
          ([], 0, [])).1.map (fun c => c.totalFee)).sum)
    ∧ ¬ (1/100 < |(((t.items.foldl (calcStep t.destination.state t.destination.city exm)
          ([], 0, [])).1.map (fun c => c.totalFee)).sum
          - round2 ((t.items.foldl (calcStep t.destination.state t.destination.city exm)
              ([], 0, [])).2.1))|)
    ∧ (calculateFees t exm).items
      = (t.items.foldl (calcStep t.destination.state t.destination.city exm) ([], 0, [])).1 := by
  obtain ⟨h1, h2⟩ :=
    foldl_calcStep_spec t.destination.state t.destination.city exm t.items ([], 0, [])
  have hnil1 : (t.items.foldl (calcStep t.destination.state t.destination.city exm)
      ([], 0, [])).1 = t.items.map (itemOutput t.destination.state t.destination.city exm) := by
    simpa using h1
  have hnil2 : (t.items.foldl (calcStep t.destination.state t.destination.city exm)
      ([], 0, [])).2.1
      = (t.items.map
          (fun it => (itemOutput t.destination.state t.destination.city exm it).totalFee)).sum := by
    simpa using h2
  have hmapmap : ((t.items.map (itemOutput t.destination.state t.destination.city exm)).map
      (fun c => c.totalFee)).sum
      = (t.items.map
          (fun it => (itemOutput t.destination.state t.destination.city exm it).totalFee)).sum := by
    rw [List.map_map]
    rfl
  have hcent : Cent ((t.items.map
      (fun it => (itemOutput t.destination.state t.destination.city exm it).totalFee)).sum) := by
    apply cent_list_sum
    intro x hx
    rw [List.mem_map] at hx
    obtain ⟨it, hit, hx⟩ := hx
    rw [← hx]
    exact itemOutput_totalFee_cent _ _ _ _
  have hround := round2_of_cent hcent
  refine ⟨?_, ?_, ?_⟩
  · rw [calculateFees_closed, hnil1, hmapmap, hround]
  · rw [hnil1, hnil2, hmapmap, hround, sub_self, abs_zero]
    norm_num
  · rw [calculateFees_closed, hnil1]

/-! ## C2 -/

/-- The item totalFee composition as the claim words it (all four component
amounts rounded to 2 decimals before summation); written from the claim for
comparison against calculateItemFees. -/
def claimedItemTotalFee (item : Item) (st ci : String) : ℚ :=
  round2 (round2 (item.amount * getStateRate st)
    + ((getCountyRate st ci).map (fun cr => round2 (item.amount * cr))).getD 0
    + ((getCityRate st ci).map (fun cr => round2 (item.amount * cr))).getD 0
    + round2 (item.amount * getCategoryModifier item.category))

/-- C2 counterexample: for a CA SOFTWARE item of amount 100.75 with no county
or city component, the code computes totalFee 7.05 (rounding the exact sum
6.045 + 1.0075 = 7.0525 once), while the claim's sum of pre-rounded components
gives 6.05 + 1.01 = 7.06; the claim as stated is false. -/
theorem round2_eq_div (q : ℚ) (k : ℤ) (h1 : (k : ℚ) ≤ q * 100 + 1/2)
    (h2 : q * 100 + 1/2 < (k : ℚ) + 1) : round2 q = (k : ℚ) / 100 := by
  unfold round2
  have hk : ⌊q * 100 + 1/2⌋ = k := by
    rw [Int.floor_eq_iff]
    exact ⟨h1, h2⟩
  rw [hk]

theorem itemFee_component_rounding_cex :
    (calculateItemFees ⟨"item_1", "SOFTWARE", 100.75⟩ "CA" "San Francisco").totalFee = 141/20
    ∧ claimedItemTotalFee ⟨"item_1", "SOFTWARE", 100.75⟩ "CA" "San Francisco" = 353/50
    ∧ ((141 : ℚ)/20 ≠ 353/50) := by
  have hc : getCountyRate "CA" "San Francisco" = none := by
    simp [getCountyRate, STATE_RATES, COUNTY_MAPPINGS]
  have hy : getCityRate "CA" "San Francisco" = none := by
    simp [getCityRate, STATE_RATES]
  have hs : getStateRate "CA" = 0.06 := by
    simp [getStateRate, STATE_RATES]
  have hm : getCategoryModifier "SOFTWARE" = 0.01 := by
    simp [getCategoryModifier, CATEGORY_MODIFIERS]
  refine ⟨?_, ?_, by norm_num⟩
  · simp only [calculateItemFees, hc, hy]
    rw [hs, hm]
    norm_num
    rw [round2_eq_div _ 705 (by norm_num) (by norm_num)]
    norm_num
  · unfold claimedItemTotalFee
    rw [hc, hy, hs, hm]
    norm_num
    rw [round2_eq_div ((1209 : ℚ)/200) 605 (by norm_num) (by norm_num),
        round2_eq_div ((403 : ℚ)/400) 101 (by norm_num) (by norm_num)]
    norm_num
    rw [round2_eq_div ((353 : ℚ)/50) 706 (by norm_num) (by norm_num)]
    norm_num

/-- C2 amended: each of the four breakdown amounts is rate times amount rounded
to 2 decimals, but the item's totalFee is the single rounding of the exact
state fee plus the rounded county amount plus the rounded city amount plus the
exact category-modifier fee: rounding-before-summation applies only to the
county and city components. -/
theorem itemFee_component_rounding_amended (item : Item) (st ci : String) :
    (calculateItemFees item st ci).fees.stateRate
      = ⟨st, getStateRate st, round2 (item.amount * getStateRate st)⟩
    ∧ (calculateItemFees item st ci).fees.categoryModifier
      = ⟨item.category, getCategoryModifier item.category,
         round2 (item.amount * getCategoryModifier item.category)⟩
    ∧ (calculateItemFees item st ci).fees.countyRate
      = (getCountyRate st ci).map (fun cr => ⟨getCountyName ci, cr, round2 (item.amount * cr)⟩)
    ∧ (calculateItemFees item st ci).fees.cityRate
      = (getCityRate st ci).map (fun cr => ⟨ci, cr, round2 (item.amount * cr)⟩)
    ∧ (calculateItemFees item st ci).totalFee
      = round2 (item.amount * getStateRate st
          + ((getCountyRate st ci).map (fun cr => round2 (item.amount * cr))).getD 0
          + ((getCityRate st ci).map (fun cr => round2 (item.amount * cr))).getD 0
          + item.amount * getCategoryModifier item.category) := by
  cases hc : getCountyRate st ci <;> cases hy : getCityRate st ci <;>
    simp [calculateItemFees, hc, hy]

/-! ## C5 -/

/-- C5: if customerExemptions is non-empty every item's totalFee is 0 and
totalFees is 0; if customerExemptions is empty and exactly the items with a
given id carry item-level exemption entries, those output items have
totalFee 0 and every other output item is the normal per-item calculation. -/
theorem exemption_zeroing (t : TransactionInput) (exm : ExemptionData) :
    (exm.customerExemptions ≠ [] →
      (∀ c ∈ (calculateFees t exm).items, c.totalFee = 0)
      ∧ (calculateFees t exm).totalFees = 0)
    ∧ (∀ target : String, exm.customerExemptions = [] →
        (∀ it ∈ t.items, (lookupExemptions exm.itemExemptions it.id ≠ [] ↔ it.id = target)) →
        ∀ c ∈ (calculateFees t exm).items,
          (c.itemId = target → c.totalFee = 0)
          ∧ (c.itemId ≠ target →
              ∃ it ∈ t.items, it.id = c.itemId
                ∧ c = calculateItemFees it t.destination.state t.destination.city)) := by
  have hitems : (calculateFees t exm).items
      = t.items.map (itemOutput t.destination.state t.destination.city exm) := by
    rw [calculateFees_closed]
  constructor
  · intro hne
    have hexempt : ∀ it : Item, itemIsExempt exm it = true := by
      intro it
      unfold itemIsExempt
      have : 0 < exm.customerExemptions.length := by
        cases hl : exm.customerExemptions with
        | nil => exact absurd hl hne
        | cons a l => simp [hl]
      simp [this]
    have hzero : ∀ c ∈ (calculateFees t exm).items, c.totalFee = 0 := by
      intro c hc
      rw [hitems, List.mem_map] at hc
      obtain ⟨it, hit, hc⟩ := hc
      rw [← hc]
      unfold itemOutput
      rw [hexempt it]
      rfl
    refine ⟨hzero, ?_⟩
    have htot : (calculateFees t exm).totalFees
        = (t.items.map
            (fun it => (itemOutput t.destination.state t.destination.city exm it).totalFee)).sum := by
      rw [calculateFees_closed]
    rw [htot]
    apply List.sum_eq_zero
    intro x hx
    rw [List.mem_map] at hx
    obtain ⟨it, hit, hx⟩ := hx
    rw [← hx]
    unfold itemOutput
    rw [hexempt it]
    rfl
  · intro target hce honly c hc
    rw [hitems, List.mem_map] at hc
    obtain ⟨it, hit, hc⟩ := hc
    have hid : c.itemId = it.id := by
      rw [← hc]
      unfold itemOutput
      cases h : itemIsExempt exm it <;> simp [h, exemptItemCalc, calculateItemFees]
    have hcust : decide (0 < exm.customerExemptions.length) = false := by
      rw [hce]
      rfl
    constructor
    · intro htarget
      have hlook : lookupExemptions exm.itemExemptions it.id ≠ [] :=
        (honly it hit).mpr (by rw [← hid, htarget])
      have hlen : 0 < (lookupExemptions exm.itemExemptions it.id).length := by
        cases hl : lookupExemptions exm.itemExemptions it.id with
        | nil => exact absurd hl hlook
        | cons a l => simp [hl]
      have hexempt : itemIsExempt exm it = true := by
        unfold itemIsExempt
        simp [hlen]
      rw [← hc]
      unfold itemOutput
      rw [hexempt]
      rfl
    · intro htarget
      have hlook : lookupExemptions exm.itemExemptions it.id = [] := by
        by_contra hne
        exact htarget (by rw [hid]; exact (honly it hit).mp hne)
      have hexempt : itemIsExempt exm it = false := by
        unfold itemIsExempt
        rw [hlook, hcust]
        rfl
      refine ⟨it, hit, hid.symm, ?_⟩
      rw [← hc]
      unfold itemOutput
      rw [hexempt]
      rfl

/-- C5 witness: a wholesale-exempt customer on the sample CA transaction pays
zero total fees. -/
theorem exemption_zeroing_witness :
    (calculateFees sampleTxA ⟨["WHOLESALE"], []⟩).totalFees = 0 :=
  ((exemption_zeroing sampleTxA ⟨["WHOLESALE"], []⟩).1 (by decide)).2

/-! ## Address gate cache lemmas -/

theorem find?_append_of_none {α : Type} (p : α → Bool) (l1 l2 : List α)
    (h : l1.find? p = none) : (l1 ++ l2).find? p = l2.find? p := by
  induction l1 with
  | nil => simp
  | cons a t ih =>
    rw [List.cons_append]
    cases hp : p a
    · simp only [List.find?_cons, hp] at h ⊢
      exact ih h
    · simp only [List.find?_cons, hp] at h
      exact absurd h (by simp)

theorem cacheLookup_insert_self (cache : AddrCache) (k : String) (v : Bool)
    (h : cacheLookup cache k = none) :
    cacheLookup (cacheInsert cache k v) k = some v := by
  have hfind : cache.find? (fun p => p.1 == k) = none := by
    unfold cacheLookup at h
    cases hf : cache.find? (fun p => p.1 == k) with
    | none => rfl
    | some p =>
      rw [hf] at h
      simp at h
  unfold cacheInsert
  rw [hfind]
  simp only [Option.isSome_none, Bool.false_eq_true, if_false]
  unfold cacheLookup
  rw [find?_append_of_none _ _ _ hfind]
  simp [List.find?_cons]

/-- Behaviour of a run that hits the cache: the cached boolean decides the
result, a cached negative is reported as a VALIDATION failure, a cached
positive carries source=cache, and the cache is unchanged. -/
theorem addressExec_cache_hit (t : TransactionInput) (remote : RemoteBehavior)
    (cache : AddrCache) (b : Bool)
    (hhit : cacheLookup cache (t.destination.state ++ ":" ++ t.destination.city) = some b) :
    (addressValidationExec t remote cache).1.passed = b
    ∧ (b = false →
        (addressValidationExec t remote cache).1.errorType = some ErrorType.VALIDATION)
    ∧ (b = true →
        (addressValidationExec t remote cache).1.metadata = some { source := some "cache" })
    ∧ (addressValidationExec t remote cache).2 = cache := by
  simp only [addressValidationExec, hhit]
  cases b <;> simp [createPassResult, createFailResult]

/-- Behaviour of a cache-miss run whose remote call throws: the fallback
re-validates with the same rules and decides pass/fail on that basis, passes
carry source=fallback and no errorType, failures carry DEPENDENCY and a
fallback marker, and the outcome (positive or negative) is written to the
cache under the state:city key. -/
theorem addressExec_fallback_spec (t : TransactionInput) (cache : AddrCache)
    (hmiss : cacheLookup cache (t.destination.state ++ ":" ++ t.destination.city) = none) :
    (addressValidationExec t .fails cache).1.passed
      = addressValidationLogic t.destination.country t.destination.state t.destination.city
    ∧ ((addressValidationExec t .fails cache).1.passed = true →
        (addressValidationExec t .fails cache).1.errorType = none
        ∧ (addressValidationExec t .fails cache).1.metadata
            = some { source := some "fallback", country := some t.destination.country,
                     state := some t.destination.state, city := some t.destination.city })
    ∧ ((addressValidationExec t .fails cache).1.passed = false →
        (addressValidationExec t .fails cache).1.errorType = some ErrorType.DEPENDENCY
        ∧ ∃ md, (addressValidationExec t .fails cache).1.metadata = some md
            ∧ md.fallback = some true)
    ∧ (addressValidationExec t .fails cache).2
      = cacheInsert cache (t.destination.state ++ ":" ++ t.destination.city)
          (addressValidationLogic t.destination.country t.destination.state
            t.destination.city) := by
  simp only [addressValidationExec, hmiss]
  unfold fallbackValidation addressValidationLogic
  by_cases hcountry : t.destination.country = "US"
  · cases hstate : isStateSupported t.destination.state
    · simp [hcountry, hstate, createFailResult]
    · cases hcity : isCitySupported t.destination.state t.destination.city
      · simp [hcountry, hstate, hcity, createFailResult]
      · simp [hcountry, hstate, hcity, createPassResult]
  · have hb : (t.destination.country == "US") = false := by
      simp [hcountry]
    simp [hcountry, createFailResult, hb]

/-- Behaviour of a cache-miss run whose remote call returns: the validation
outcome (positive or negative) is written to the cache. -/
theorem addressExec_succeeds_snd (t : TransactionInput) (cache : AddrCache)
    (hmiss : cacheLookup cache (t.destination.state ++ ":" ++ t.destination.city) = none) :
    (addressValidationExec t .succeeds cache).2
      = cacheInsert cache (t.destination.state ++ ":" ++ t.destination.city)
          (addressValidationLogic t.destination.country t.destination.state
            t.destination.city) := by
  simp only [addressValidationExec, hmiss]
  cases hv : addressValidationLogic t.destination.country t.destination.state
      t.destination.city <;> simp [hv]

/-! ## C3 -/

/-- C3 counterexample: on a remote failure for a non-US destination the gate
does fail on the basis of the local rules, but the result carries
errorType=DEPENDENCY; the claim's "errorType absent" on the fallback path is
false for fallback failures. -/
theorem addressFallback_errorType_cex :
    (addressValidationExec sampleTxFR .fails []).1.passed = false
    ∧ (addressValidationExec sampleTxFR .fails []).1.errorType = some ErrorType.DEPENDENCY
    ∧ (addressValidationExec sampleTxFR .fails []).1.errorType ≠ none := by
  refine ⟨by decide, by decide, by decide⟩

/-- C3 amended: on remote failure or timeout the fallback re-validates the
destination with the same rules (country US, supported state, supported city)
and the gate passes or fails on that basis; a fallback pass has errorType
absent and source=fallback, while a fallback failure carries
errorType=DEPENDENCY and a fallback marker in its metadata. -/
theorem addressFallback_local_rules_amended (t : TransactionInput) (cache : AddrCache)
    (hmiss : cacheLookup cache (t.destination.state ++ ":" ++ t.destination.city) = none) :
    (addressValidationExec t .fails cache).1.passed
      = addressValidationLogic t.destination.country t.destination.state t.destination.city
    ∧ ((addressValidationExec t .fails cache).1.passed = true →
        (addressValidationExec t .fails cache).1.errorType = none
        ∧ (addressValidationExec t .fails cache).1.metadata
            = some { source := some "fallback", country := some t.destination.country,
                     state := some t.destination.state, city := some t.destination.city })
    ∧ ((addressValidationExec t .fails cache).1.passed = false →
        (addressValidationExec t .fails cache).1.errorType = some ErrorType.DEPENDENCY
        ∧ ∃ md, (addressValidationExec t .fails cache).1.metadata = some md
            ∧ md.fallback = some true) := by
  obtain ⟨h1, h2, h3, _⟩ := addressExec_fallback_spec t cache hmiss
  exact ⟨h1, h2, h3⟩

/-- C3 amended witness: with an empty cache and a failing remote call, the
supported destination of the sample CA transaction passes by fallback. -/
theorem addressFallback_local_rules_amended_witness :
    (addressValidationExec sampleTxA .fails []).1.passed
      = addressValidationLogic sampleTxA.destination.country sampleTxA.destination.state
          sampleTxA.destination.city
    ∧ (addressValidationExec sampleTxA .fails []).1.errorType = none
    ∧ (addressValidationExec sampleTxA .fails []).1.metadata
        = some { source := some "fallback", country := some sampleTxA.destination.country,
                 state := some sampleTxA.destination.state,
                 city := some sampleTxA.destination.city } := by
  have h := addressFallback_local_rules_amended sampleTxA [] (by decide)
  have hp : (addressValidationExec sampleTxA .fails []).1.passed = true := by decide
  exact ⟨h.1, (h.2.1 hp).1, (h.2.1 hp).2⟩

/-! ## C10 -/

/-- C10: the validation outcome is written to the state:city cache both on a
remote success and on the fallback path; a fallback failure reports
DEPENDENCY, but every later execution for the same state:city is served from
the cache, with a cached negative reported as a VALIDATION failure, a cached
positive served with source=cache, and the cache left unchanged. -/
theorem address_cache_semantics (t : TransactionInput) (cache : AddrCache)
    (hmiss : cacheLookup cache (t.destination.state ++ ":" ++ t.destination.city) = none) :
    cacheLookup (addressValidationExec t .succeeds cache).2
        (t.destination.state ++ ":" ++ t.destination.city)
      = some (addressValidationLogic t.destination.country t.destination.state
          t.destination.city)
    ∧ cacheLookup (addressValidationExec t .fails cache).2
        (t.destination.state ++ ":" ++ t.destination.city)
      = some (addressValidationLogic t.destination.country t.destination.state
          t.destination.city)
    ∧ (addressValidationLogic t.destination.country t.destination.state
          t.destination.city = false →
        (addressValidationExec t .fails cache).1.errorType = some ErrorType.DEPENDENCY)
    ∧ ∀ remote2 : RemoteBehavior,
        (addressValidationExec t remote2 (addressValidationExec t .fails cache).2).1.passed
          = addressValidationLogic t.destination.country t.destination.state
              t.destination.city
        ∧ (addressValidationLogic t.destination.country t.destination.state
              t.destination.city = false →
            (addressValidationExec t remote2
              (addressValidationExec t .fails cache).2).1.errorType
              = some ErrorType.VALIDATION)
        ∧ (addressValidationLogic t.destination.country t.destination.state
              t.destination.city = true →
            (addressValidationExec t remote2
              (addressValidationExec t .fails cache).2).1.metadata
              = some { source := some "cache" })
        ∧ (addressValidationExec t remote2 (addressValidationExec t .fails cache).2).2
            = (addressValidationExec t .fails cache).2 := by
  obtain ⟨hp, _, hdep, hsnd⟩ := addressExec_fallback_spec t cache hmiss
  have hsucc := addressExec_succeeds_snd t cache hmiss
  have hwrite1 : cacheLookup (addressValidationExec t .succeeds cache).2
      (t.destination.state ++ ":" ++ t.destination.city)
      = some (addressValidationLogic t.destination.country t.destination.state
          t.destination.city) := by
    rw [hsucc]
    exact cacheLookup_insert_self _ _ _ hmiss
  have hwrite2 : cacheLookup (addressValidationExec t .fails cache).2
      (t.destination.state ++ ":" ++ t.destination.city)
      = some (addressValidationLogic t.destination.country t.destination.state
          t.destination.city) := by
    rw [hsnd]
    exact cacheLookup_insert_self _ _ _ hmiss
  refine ⟨hwrite1, hwrite2, ?_, ?_⟩
  · intro hfalse
    apply (hdep ?_).1
    rw [hp, hfalse]
  · intro remote2
    obtain ⟨ha, hb, hc, hd⟩ := addressExec_cache_hit t remote2
      (addressValidationExec t .fails cache).2
      (addressValidationLogic t.destination.country t.destination.state t.destination.city)
      hwrite2
    exact ⟨ha, hb, hc, hd⟩

/-- C10 witness: an unsupported city cached as negative by the fallback is
reported as a VALIDATION failure on the next run. -/
theorem address_cache_semantics_witness :
    cacheLookup (addressValidationExec sampleTxNowhere .fails []).2
        (sampleTxNowhere.destination.state ++ ":" ++ sampleTxNowhere.destination.city)
      = some false
    ∧ (addressValidationExec sampleTxNowhere RemoteBehavior.succeeds
        (addressValidationExec sampleTxNowhere .fails []).2).1.errorType
      = some ErrorType.VALIDATION := by
  have h := address_cache_semantics sampleTxNowhere [] (by decide)
  have hlogic : addressValidationLogic sampleTxNowhere.destination.country
      sampleTxNowhere.destination.state sampleTxNowhere.destination.city = false := by decide
  constructor
  · rw [h.2.1, hlogic]
  · exact (h.2.2.2 RemoteBehavior.succeeds).2.1 hlogic

/-! ## Gate name and evaluation lemmas -/

theorem inputValidationExec_gateName (t : TransactionInput) :
    (inputValidationExec t).gateName = "InputValidation" := by
  cases h : inputValidationError t <;>
    simp [inputValidationExec, h, createPassResult, createFailResult]

theorem addressValidationExec_gateName (t : TransactionInput) (remote : RemoteBehavior)
    (cache : AddrCache) :
    (addressValidationExec t remote cache).1.gateName = "AddressValidation" := by
  cases hcl : cacheLookup cache (t.destination.state ++ ":" ++ t.destination.city) with
  | some b =>
    cases b <;> simp [addressValidationExec, hcl, createPassResult, createFailResult]
  | none =>
    cases remote with
    | succeeds =>
      cases hv : addressValidationLogic t.destination.country t.destination.state
          t.destination.city <;>
        simp [addressValidationExec, hcl, hv, createPassResult, createFailResult]
    | fails =>
      by_cases hc2 : t.destination.country = "US"
      · cases hs : isStateSupported t.destination.state with
        | false =>
          simp [addressValidationExec, fallbackValidation, hcl, hc2, hs, createFailResult]
        | true =>
          cases hcy : isCitySupported t.destination.state t.destination.city <;>
            simp [addressValidationExec, fallbackValidation, hcl, hc2, hs, hcy,
              createPassResult, createFailResult]
      · simp [addressValidationExec, fallbackValidation, hcl, hc2, createFailResult]

theorem applicabilityExec_gateName (t : TransactionInput) :
    (applicabilityExec t).gateName = "Applicability" := by
  cases h : merchantMeetsThreshold t.merchantId t.destination.state <;>
    simp [applicabilityExec, h, createPassResult, createFailResult]

theorem exemptionExec_gateName (t : TransactionInput) (ctx : Context) :
    (exemptionExec t ctx).gateName = "ExemptionCheck" := rfl

theorem inputValidationExec_txA :
    inputValidationExec sampleTxA
      = createPassResult "InputValidation" "Input validation passed" none := by
  have h : inputValidationError sampleTxA = none := by
    norm_num [inputValidationError, sampleTxA, firstItemViolation, itemViolation]
    decide
  simp [inputValidationExec, h]

theorem inputValidationExec_txE :
    inputValidationExec sampleTxE
      = createPassResult "InputValidation" "Input validation passed" none := by
  have h : inputValidationError sampleTxE = none := by
    norm_num [inputValidationError, sampleTxE, firstItemViolation, itemViolation]
    decide
  simp [inputValidationExec, h]

theorem orchestratorExecute_txA :
    orchestratorExecute sampleTxA ⟨none⟩ .succeeds []
      = ⟨[⟨"InputValidation", true, some "Input validation passed", none, none⟩,
          ⟨"AddressValidation", true, some "Valid US address", none,
            some { source := some "external_service" }⟩,
          ⟨"Applicability", true, some "Merchant above $100K threshold in CA", none,
            some { state := some "CA", merchantId := some "merchant_456",
                   volume := some 2300000, threshold := some 100000 }⟩,
          ⟨"ExemptionCheck", true, some "No exemptions applied", none,
            some { exemptionData := some ⟨[], []⟩, appliedExemptions := some [] }⟩],
         true,
         ["Input validation passed", "Valid US address",
          "Merchant above $100K threshold in CA", "No exemptions applied"],
         [("CA:Los Angeles", true)]⟩ := by
  simp only [orchestratorExecute, inputValidationExec_txA]
  decide

theorem orchestratorExecute_txE_passed :
    (orchestratorExecute sampleTxE ⟨none⟩ RemoteBehavior.succeeds []).passed = false := by
  simp only [orchestratorExecute, inputValidationExec_txE]
  decide

/-! ## Orchestrator short-circuit lemmas -/

/-- The results the four gates of the fixed registry order produce on this
input; a short-circuited run returns a prefix of this list. -/
def fixedOrderGateResults (t : TransactionInput) (ctx : Context) (remote : RemoteBehavior)
    (cache : AddrCache) : List GateResult :=
  [inputValidationExec t, (addressValidationExec t remote cache).1,
   applicabilityExec t, exemptionExec t ctx]

theorem orchestrator_results_take (t : TransactionInput) (ctx : Context)
    (remote : RemoteBehavior) (cache : AddrCache) :
    (orchestratorExecute t ctx remote cache).results
      = (fixedOrderGateResults t ctx remote cache).take
          (orchestratorExecute t ctx remote cache).results.length := by
  cases h1 : (inputValidationExec t).passed
  · simp [orchestratorExecute, fixedOrderGateResults, h1]
  · cases h2 : (addressValidationExec t remote cache).1.passed
    · simp [orchestratorExecute, fixedOrderGateResults, h1, h2]
    · cases h3 : (applicabilityExec t).passed
      · simp [orchestratorExecute, fixedOrderGateResults, h1, h2, h3]
      · cases h4 : (exemptionExec t ctx).passed <;>
          simp [orchestratorExecute, fixedOrderGateResults, h1, h2, h3, h4]

theorem orchestrator_results_gateNames (t : TransactionInput) (ctx : Context)
    (remote : RemoteBehavior) (cache : AddrCache) :
    ∀ r ∈ (orchestratorExecute t ctx remote cache).results,
      r.gateName = "InputValidation" ∨ r.gateName = "AddressValidation"
      ∨ r.gateName = "Applicability" ∨ r.gateName = "ExemptionCheck" := by
  intro r hr
  rw [orchestrator_results_take] at hr
  have hr2 : r ∈ fixedOrderGateResults t ctx remote cache := List.take_subset _ _ hr
  simp only [fixedOrderGateResults, List.mem_cons, List.mem_singleton,
    List.not_mem_nil, or_false] at hr2
  rcases hr2 with rfl | rfl | rfl | rfl
  · exact Or.inl (inputValidationExec_gateName t)
  · exact Or.inr (Or.inl (addressValidationExec_gateName t remote cache))
  · exact Or.inr (Or.inr (Or.inl (applicabilityExec_gateName t)))
  · exact Or.inr (Or.inr (Or.inr (exemptionExec_gateName t ctx)))

/-! ## C4 -/

/-- C4: a failing run returns exactly the prefix of the fixed-order gate
results up to and including the first failure (all earlier results passed,
the last failed, later gates never execute), and the engine response for such
a run is REJECTED with no calculation. -/
theorem orchestrator_short_circuit (t : TransactionInput) (ctx : Context)
    (remote : RemoteBehavior) (cache : AddrCache) :
    (orchestratorExecute t ctx remote cache).results
      = (fixedOrderGateResults t ctx remote cache).take
          (orchestratorExecute t ctx remote cache).results.length
    ∧ ((orchestratorExecute t ctx remote cache).passed = false →
        (orchestratorExecute t ctx remote cache).results.map (fun r => r.passed)
          = List.replicate ((orchestratorExecute t ctx remote cache).results.length - 1) true
            ++ [false]
        ∧ (engineProcess t ctx remote cache).1.calculation = none
        ∧ (engineProcess t ctx remote cache).1.status = TransactionStatus.REJECTED) := by
  refine ⟨orchestrator_results_take t ctx remote cache, fun hp => ⟨?_, ?_, ?_⟩⟩
  all_goals
    cases h1 : (inputValidationExec t).passed
    case false => simp [orchestratorExecute, engineProcess, h1]
    case true =>
      cases h2 : (addressValidationExec t remote cache).1.passed
      case false => simp [orchestratorExecute, engineProcess, h1, h2]
      case true =>
        cases h3 : (applicabilityExec t).passed
        case false => simp [orchestratorExecute, engineProcess, h1, h2, h3]
        case true =>
          cases h4 : (exemptionExec t ctx).passed
          case false => simp [orchestratorExecute, engineProcess, h1, h2, h3, h4]
          case true =>
            exfalso
            simp [orchestratorExecute, h1, h2, h3, h4] at hp

/-- C4 witness: the below-threshold merchant run is rejected without a
calculation. -/
theorem orchestrator_short_circuit_witness :
    (engineProcess sampleTxE ⟨none⟩ RemoteBehavior.succeeds []).1.calculation = none
    ∧ (engineProcess sampleTxE ⟨none⟩ RemoteBehavior.succeeds []).1.status
      = TransactionStatus.REJECTED := by
  have h := orchestrator_short_circuit sampleTxE ⟨none⟩ RemoteBehavior.succeeds []
  exact ⟨(h.2 orchestratorExecute_txE_passed).2.1, (h.2 orchestratorExecute_txE_passed).2.2⟩


/-! ## C6 -/

/-- C6: the applicability gate passes exactly when the looked-up volume meets
the fixed 100000 threshold; a failure carries errorType=VALIDATION and a
message reporting both the volume and the threshold; merchant/state pairs
absent from the volume table get volume 0 and therefore always fail. -/
theorem applicability_threshold (t : TransactionInput) :
    MERCHANT_THRESHOLD = 100000
    ∧ ((applicabilityExec t).passed = true
        ↔ MERCHANT_THRESHOLD ≤ getMerchantVolume t.merchantId t.destination.state)
    ∧ ((applicabilityExec t).passed = false →
        (applicabilityExec t).errorType = some ErrorType.VALIDATION
        ∧ (applicabilityExec t).message
          = some ("Merchant volume ($"
              ++ toLocaleString (getMerchantVolume t.merchantId t.destination.state)
              ++ ") below threshold ($" ++ toLocaleString MERCHANT_THRESHOLD ++ ") in "
              ++ t.destination.state))
    ∧ ((t.merchantId ≠ "merchant_456" ∨ t.destination.state ≠ "CA")
        ∧ (t.merchantId ≠ "merchant_789" ∨ t.destination.state ≠ "NY") →
        getMerchantVolume t.merchantId t.destination.state = 0
        ∧ (applicabilityExec t).passed = false) := by
  have hiff : (applicabilityExec t).passed = true
      ↔ MERCHANT_THRESHOLD ≤ getMerchantVolume t.merchantId t.destination.state := by
    unfold applicabilityExec merchantMeetsThreshold
    by_cases h : MERCHANT_THRESHOLD ≤ getMerchantVolume t.merchantId t.destination.state
    · simp [h, createPassResult]
    · simp [h, createFailResult]
  refine ⟨rfl, hiff, ?_, ?_⟩
  · intro hfail
    have hlt : ¬ MERCHANT_THRESHOLD ≤ getMerchantVolume t.merchantId t.destination.state := by
      intro hle
      rw [hiff.mpr hle] at hfail
      simp at hfail
    unfold applicabilityExec merchantMeetsThreshold
    simp [hlt, createFailResult]
  · rintro ⟨ha, hb⟩
    have hv : getMerchantVolume t.merchantId t.destination.state = 0 := by
      unfold getMerchantVolume
      by_cases h456 : t.merchantId = "merchant_456"
      · rcases ha with ha | ha
        · exact absurd h456 ha
        · simp [h456, ha]
      · by_cases h789 : t.merchantId = "merchant_789"
        · rcases hb with hb | hb
          · exact absurd h789 hb
          · simp [h456, h789, hb]
        · simp [h456, h789]
    refine ⟨hv, ?_⟩
    cases hp : (applicabilityExec t).passed
    · rfl
    · have := hiff.mp hp
      rw [hv] at this
      exact absurd this (by norm_num [MERCHANT_THRESHOLD])

/-- C6 witness: an unknown merchant has volume 0 and fails the gate. -/
theorem applicability_threshold_witness :
    getMerchantVolume sampleTxUnknownMerchant.merchantId
        sampleTxUnknownMerchant.destination.state = 0
    ∧ (applicabilityExec sampleTxUnknownMerchant).passed = false :=
  (applicability_threshold sampleTxUnknownMerchant).2.2.2
    ⟨Or.inl (by decide), Or.inl (by decide)⟩

/-! ## C7 -/

theorem transform_entry_shape (results : List GateResult)
    (h : ∀ r ∈ results,
      r.gateName = "InputValidation" ∨ r.gateName = "AddressValidation"
      ∨ r.gateName = "Applicability" ∨ r.gateName = "ExemptionCheck") :
    ∀ e ∈ transformGateResults results,
      (e.name = "ADDRESS_VALIDATION" ∨ e.name = "APPLICABILITY"
        ∨ e.name = "EXEMPTION_CHECK")
      ∧ (e.appliedExemptions.isSome ↔ e.name = "EXEMPTION_CHECK") := by
  intro e he
  unfold transformGateResults at he
  rw [List.mem_map] at he
  obtain ⟨r, hr, he⟩ := he
  rw [List.mem_filter] at hr
  obtain ⟨hrmem, hrname⟩ := hr
  rcases h r hrmem with h0 | h0 | h0 | h0
  · rw [h0] at hrname
    simp at hrname
  · rw [← he]
    simp [h0, gateNameMapping]
  · rw [← he]
    simp [h0, gateNameMapping]
  · rw [← he]
    rcases hmd : r.metadata with _ | md
    · simp [h0, gateNameMapping, hmd]
    · rcases hae : md.appliedExemptions with _ | l <;>
        simp [h0, gateNameMapping, hmd, hae]

/-- C7: every public gate entry of a ComplianceEngine response is one of the
fixed renames ADDRESS_VALIDATION, APPLICABILITY, EXEMPTION_CHECK (so the
InputValidation result is never exposed), and an entry carries an
appliedExemptions array exactly when it is the EXEMPTION_CHECK entry. -/
theorem public_gates_shape (t : TransactionInput) (ctx : Context)
    (remote : RemoteBehavior) (cache : AddrCache) :
    ∀ e ∈ (engineProcess t ctx remote cache).1.gates,
      (e.name = "ADDRESS_VALIDATION" ∨ e.name = "APPLICABILITY"
        ∨ e.name = "EXEMPTION_CHECK")
      ∧ (e.appliedExemptions.isSome ↔ e.name = "EXEMPTION_CHECK") := by
  intro e he
  have hgates : (engineProcess t ctx remote cache).1.gates
      = transformGateResults (orchestratorExecute t ctx remote cache).results := by
    cases hp : (orchestratorExecute t ctx remote cache).passed <;>
      simp [engineProcess, hp]
  rw [hgates] at he
  exact transform_entry_shape _ (orchestrator_results_gateNames t ctx remote cache) e he

/-- C7 witness: the EXEMPTION_CHECK entry of the sample calculated run has the
public name and carries its (empty) appliedExemptions array. -/
theorem public_gates_shape_witness :
    ((⟨"EXEMPTION_CHECK", true, some "No exemptions applied", some []⟩ : GateEntry).name
        = "ADDRESS_VALIDATION"
      ∨ (⟨"EXEMPTION_CHECK", true, some "No exemptions applied", some []⟩ : GateEntry).name
        = "APPLICABILITY"
      ∨ (⟨"EXEMPTION_CHECK", true, some "No exemptions applied", some []⟩ : GateEntry).name
        = "EXEMPTION_CHECK")
    ∧ ((⟨"EXEMPTION_CHECK", true, some "No exemptions applied",
          some []⟩ : GateEntry).appliedExemptions.isSome
      ↔ (⟨"EXEMPTION_CHECK", true, some "No exemptions applied", some []⟩ : GateEntry).name
        = "EXEMPTION_CHECK") := by
  apply public_gates_shape sampleTxA ⟨none⟩ RemoteBehavior.succeeds []
  have hg : (engineProcess sampleTxA ⟨none⟩ RemoteBehavior.succeeds []).1.gates
      = [⟨"ADDRESS_VALIDATION", true, some "Valid US address", none⟩,
         ⟨"APPLICABILITY", true, some "Merchant above $100K threshold in CA", none⟩,
         ⟨"EXEMPTION_CHECK", true, some "No exemptions applied", some []⟩] := by
    simp only [engineProcess, orchestratorExecute_txA]
    decide
  rw [hg]
  decide

/-! ## C8 -/

/-- C8 counterexample: in a fully passing run the audit line recorded after
the InputValidation gate is the gate's own message "Input validation passed",
not a line of the form "<gate> passed" (which would be
"InputValidation passed"); the claim's pass-line format is false. -/
theorem audit_line_pass_cex :
    (orchestratorExecute sampleTxA ⟨none⟩ .succeeds []).auditTrail.head?
      = some "Input validation passed"
    ∧ "Input validation passed" ≠ "InputValidation passed" := by
  rw [orchestratorExecute_txA]
  exact ⟨rfl, by decide⟩

/-- C8 amended: after each executed gate the orchestrator appends exactly one
audit line: the gate's message when it passed (falling back to
"<gate> passed" only when the message is absent or empty), and
"<gate> failed: <message>" when it failed. -/
theorem audit_line_amended (t : TransactionInput) (ctx : Context)
    (remote : RemoteBehavior) (cache : AddrCache) :
    (orchestratorExecute t ctx remote cache).auditTrail
      = (orchestratorExecute t ctx remote cache).results.map auditLine := by
  cases h1 : (inputValidationExec t).passed
  · simp [orchestratorExecute, h1]
  · cases h2 : (addressValidationExec t remote cache).1.passed
    · simp [orchestratorExecute, h1, h2]
    · cases h3 : (applicabilityExec t).passed
      · simp [orchestratorExecute, h1, h2, h3]
      · cases h4 : (exemptionExec t ctx).passed <;>
          simp [orchestratorExecute, h1, h2, h3, h4]

end Compliance
